import Mathlib

/-!
Shallow embedding of the ClimaGrid backend (src/climagrid-backend/main.py).

Modelling conventions:
- datetimes are modelled as integers (seconds); a Python timedelta of
  h hours is 3600 * h seconds;
- float metric values are modelled as rationals; coordinates and the
  haversine computation are modelled over the reals (the code's trig
  functions have no exact finite representation);
- an upstream ISO-8601 time string is modelled by the outcome of
  datetime.fromisoformat on it after the code's Z-to-+00:00 rewrite:
  none when the parse raises ValueError, and otherwise an offset-naive
  or offset-aware instant (ParsedTime).  HourlyPayload and buildPoints
  model the offset-naive success path (the shape the provider sends for
  timezone=UTC); HourlyPayloadTz and buildPointsAware model the full
  outcome, in which comparing an offset-aware instant with the
  offset-naive utcnow cutoff raises an uncaught TypeError;
- a JSON value that may be null or absent is modelled as an Option;
- the HTTP transport layer is outside src responsibility: each fetch
  function takes the already-received upstream JSON payload as an
  argument, and the injected clock value now as another.
-/

namespace ClimaGrid

/-- The MetricKey literal type of main.py. -/
inductive MetricKey where
  | temperature
  | humidity
  | precipitation
  | windspeed
deriving DecidableEq

/-- One entry of METRIC_CATALOG in main.py. -/
structure MetricDescriptor where
  label : String
  api_field : String
  unit : String
deriving DecidableEq

/-- METRIC_CATALOG of main.py as a total lookup on the metric enumeration.
The temperature unit reproduces the source file's literal byte sequence
(a mojibake rendering of the degree sign). -/
def METRIC_CATALOG : MetricKey → MetricDescriptor
  | .temperature => { label := "Air Temperature", api_field := "temperature_2m", unit := "Â°C" }
  | .humidity => { label := "Relative Humidity", api_field := "relativehumidity_2m", unit := "%" }
  | .precipitation => { label := "Precipitation", api_field := "precipitation", unit := "mm" }
  | .windspeed => { label := "Wind Speed", api_field := "windspeed_10m", unit := "km/h" }

/-- The TimeseriesPoint model of main.py: timestamp in seconds, numeric value. -/
structure TimeseriesPoint where
  timestamp : ℤ
  value : ℚ
deriving DecidableEq

/-- The BaseObservation model of main.py (request body of POST /observations). -/
structure BaseObservation where
  timestamp : ℤ
  metric : MetricKey
  value : ℚ
  latitude : ℝ
  longitude : ℝ
  location_name : Option String
  source : Option String
  notes : Option String

/-- The ObservationRecord model of main.py: a BaseObservation plus the
server-assigned id and submission time. -/
structure ObservationRecord where
  id : String
  timestamp : ℤ
  metric : MetricKey
  value : ℚ
  latitude : ℝ
  longitude : ℝ
  location_name : Option String
  source : Option String
  notes : Option String
  submitted_at : ℤ

/-- The TimeseriesResponse model of main.py. -/
structure TimeseriesResponse where
  metric : MetricKey
  metric_label : String
  unit : String
  latitude : ℝ
  longitude : ℝ
  hours_requested : ℤ
  source : String
  points : List TimeseriesPoint
  user_observations : List ObservationRecord

/-- math.radians: degrees to radians. -/
noncomputable def radians (x : ℝ) : ℝ := x * (Real.pi / 180)

/-- The function _haversine_distance_km of main.py, over exact reals. -/
noncomputable def haversine_distance_km (lat1 lon1 lat2 lon2 : ℝ) : ℝ :=
  let r : ℝ := 6371.0
  let d_lat := radians (lat2 - lat1)
  let d_lon := radians (lon2 - lon1)
  let a := Real.sin (d_lat / 2) ^ 2 +
    Real.cos (radians lat1) * Real.cos (radians lat2) * Real.sin (d_lon / 2) ^ 2
  let c := 2 * Real.arcsin (Real.sqrt a)
  r * c

/-- The condition of the first guard in the filtering loops of main.py:
Python "if metric and obs.metric != metric".  A MetricKey string is never
empty, so the truthiness test on metric is exactly "metric is not None". -/
def metricMismatch (metric : Option MetricKey) (obs : ObservationRecord) : Bool :=
  match metric with
  | some m => obs.metric != m
  | none => false

/-- The loop body of _filter_user_observations in main.py: walk the store in
order, skipping records that fail the metric guard, the age guard or the
radius guard, and keep the rest in order. -/
noncomputable def collectMatches (latitude longitude : ℝ) (metric : Option MetricKey)
    (cutoff : ℤ) (radius_km : ℝ) : List ObservationRecord → List ObservationRecord
  | [] => []
  | obs :: rest =>
    if metricMismatch metric obs then collectMatches latitude longitude metric cutoff radius_km rest
    else if obs.timestamp < cutoff then
      collectMatches latitude longitude metric cutoff radius_km rest
    else if haversine_distance_km latitude longitude obs.latitude obs.longitude > radius_km then
      collectMatches latitude longitude metric cutoff radius_km rest
    else obs :: collectMatches latitude longitude metric cutoff radius_km rest

/-- The sort key of main.py: sorted(matches, key=lambda item: item.timestamp). -/
def tsLE (a b : ObservationRecord) : Prop := a.timestamp ≤ b.timestamp

instance : DecidableRel tsLE := fun a b => inferInstanceAs (Decidable (a.timestamp ≤ b.timestamp))

instance : IsTotal ObservationRecord tsLE := ⟨fun a b => le_total a.timestamp b.timestamp⟩

instance : IsTrans ObservationRecord tsLE := ⟨fun _ _ _ h1 h2 => le_trans h1 h2⟩

/-- The function _filter_user_observations of main.py.  The clock read
datetime.utcnow() is injected as the argument now; Python sorted is a stable
sort, modelled by insertion sort. -/
noncomputable def filter_user_observations (store : List ObservationRecord)
    (latitude longitude : ℝ) (metric : Option MetricKey) (hours : ℤ)
    (radius_km : ℝ) (now : ℤ) : List ObservationRecord :=
  List.insertionSort tsLE (collectMatches latitude longitude metric (now - 3600 * hours) radius_km store)

/-- The hourly portion of the upstream forecast JSON, restricted to payloads
whose time strings all parse offset-naive or not at all: parallel arrays
under "time" (each entry the instant of its parse outcome, none for a
ValueError) and under the metric's api_field (each entry a number or null);
either array may be absent.  Payloads containing a "Z"/offset-suffixed time
string are outside this type: they are modelled by HourlyPayloadTz, on which
the code can raise TypeError instead of producing points. -/
structure HourlyPayload where
  time : Option (List (Option ℤ))
  values : Option (List (Option ℚ))

/-- The HTTPException outcomes of the fetch paths of main.py, tagged by
their taxonomy. -/
inductive FetchError where
  | upstreamError (detail : String)
  | upstreamDataError (detail : String)
  | noDataError (detail : String)
deriving DecidableEq

/-- The HTTP status code main.py attaches to each fetch failure. -/
def FetchError.statusCode : FetchError → ℕ
  | .upstreamError _ => 502
  | .upstreamDataError _ => 502
  | .noDataError _ => 404

/-- The point-building loop of _fetch_hourly_data in main.py on offset-naive
input: for each (raw_time, raw_value) pair of zip(timestamps, values), skip
an unparseable time, break on a parsed time past the cutoff, skip a null
value, and otherwise append the point.  This is the loop's behaviour only
when every parsed timestamp is offset-naive; buildPointsAware is the model
of the loop on arbitrary parse outcomes, including the TypeError raised at
the cutoff comparison by an offset-aware timestamp. -/
def buildPoints (cutoff : ℤ) : List (Option ℤ × Option ℚ) → List TimeseriesPoint
  | [] => []
  | (rawTime, rawValue) :: rest =>
    match rawTime with
    | none => buildPoints cutoff rest
    | some ts =>
      if cutoff < ts then []
      else
        match rawValue with
        | none => buildPoints cutoff rest
        | some v => { timestamp := ts, value := v } :: buildPoints cutoff rest

/-- Whether a (raw_time, raw_value) pair stops the loop: its time parses and
the parsed time exceeds the cutoff. -/
def stopsLoop (cutoff : ℤ) (p : Option ℤ × Option ℚ) : Bool :=
  match p.1 with
  | some ts => cutoff < ts
  | none => false

/-- Whether a surviving pair contributes a point: its time parses and its
value is not null. -/
def keepPair (p : Option ℤ × Option ℚ) : Option TimeseriesPoint :=
  match p with
  | (some ts, some v) => some { timestamp := ts, value := v }
  | _ => none

/-- The forecast days computation of _fetch_hourly_data in main.py:
max(1, min(7, ceil(hours / 24))). -/
def forecastDays (hours : ℤ) : ℤ := max 1 (min 7 ((hours + 23) / 24))

/-- The function _fetch_hourly_data of main.py from the point the upstream
JSON payload is in hand (the transport layer and its 502 mapping are outside
this function's data path).  datetime.utcnow() is injected as now. -/
def fetch_hourly_data (metric : MetricKey) (latitude longitude : ℝ) (hours : ℤ)
    (now : ℤ) (payload : HourlyPayload) : Except FetchError TimeseriesResponse :=
  let config := METRIC_CATALOG metric
  let timestamps := payload.time.getD []
  let values := payload.values.getD []
  if timestamps.isEmpty || values.isEmpty then
    .error (.upstreamDataError ("No " ++ config.label ++ " data returned for location."))
  else
    let cutoff := now + 3600 * hours
    let points := buildPoints cutoff (timestamps.zip values)
    if points.isEmpty then
      .error (.noDataError "No usable datapoints found for the requested window.")
    else
      .ok { metric := metric
            metric_label := config.label
            unit := config.unit
            latitude := latitude
            longitude := longitude
            hours_requested := hours
            source := "open-meteo"
            points := points.take hours.toNat
            user_observations := [] }

/-- The outcome of datetime.fromisoformat(raw_time.replace("Z", "+00:00"))
on one upstream time string that parses: a string without a trailing "Z" or
explicit UTC offset yields an offset-naive datetime; a string with one
yields an offset-aware datetime.  Both constructors carry the instant in
seconds. -/
inductive ParsedTime where
  | naive (t : ℤ)
  | aware (t : ℤ)
deriving DecidableEq

/-- An exception the point loop of main.py raises outside its try/except
(which guards only the parse and catches only ValueError): Python raises
TypeError when the comparison ts > cutoff meets an offset-aware ts and the
offset-naive cutoff built from datetime.utcnow().  No handler catches it, so
FastAPI answers 500 Internal Server Error. -/
inductive PyError where
  | typeError
deriving DecidableEq

/-- The hourly portion of the upstream forecast JSON with each time entry
carrying its full parse outcome: none for a ValueError, some for an
offset-naive or offset-aware instant. -/
structure HourlyPayloadTz where
  time : Option (List (Option ParsedTime))
  values : Option (List (Option ℚ))

/-- The point-building loop of _fetch_hourly_data in main.py on arbitrary
parse outcomes: an unparseable time is skipped; a parsed offset-aware time
raises TypeError at the comparison with the offset-naive cutoff (before the
null-value check is reached); an offset-naive time past the cutoff breaks;
a null value is skipped; anything else is appended. -/
def buildPointsAware (cutoff : ℤ) :
    List (Option ParsedTime × Option ℚ) → Except PyError (List TimeseriesPoint)
  | [] => .ok []
  | (rawTime, rawValue) :: rest =>
    match rawTime with
    | none => buildPointsAware cutoff rest
    | some (.aware _) => .error .typeError
    | some (.naive ts) =>
      if cutoff < ts then .ok []
      else
        match rawValue with
        | none => buildPointsAware cutoff rest
        | some v =>
          (buildPointsAware cutoff rest).map
            (fun pts => { timestamp := ts, value := v } :: pts)

/-- How a fetch request ends at the HTTP boundary: a 2xx response, an
HTTPException raised by the handler, or an uncaught exception, which FastAPI
turns into a 500 Internal Server Error. -/
inductive FetchOutcome where
  | response (resp : TimeseriesResponse)
  | httpError (e : FetchError)
  | crashed (e : PyError)

/-- The function _fetch_hourly_data of main.py over the full parse-outcome
payload model: identical to fetch_hourly_data except that a TypeError raised
by the point loop escapes the handler uncaught. -/
def fetch_hourly_data_tz (metric : MetricKey) (latitude longitude : ℝ) (hours : ℤ)
    (now : ℤ) (payload : HourlyPayloadTz) : FetchOutcome :=
  let config := METRIC_CATALOG metric
  let timestamps := payload.time.getD []
  let values := payload.values.getD []
  if timestamps.isEmpty || values.isEmpty then
    .httpError (.upstreamDataError ("No " ++ config.label ++ " data returned for location."))
  else
    match buildPointsAware (now + 3600 * hours) (timestamps.zip values) with
    | .error e => .crashed e
    | .ok points =>
      if points.isEmpty then
        .httpError (.noDataError "No usable datapoints found for the requested window.")
      else
        .response { metric := metric
                    metric_label := config.label
                    unit := config.unit
                    latitude := latitude
                    longitude := longitude
                    hours_requested := hours
                    source := "open-meteo"
                    points := points.take hours.toNat
                    user_observations := [] }

/-- The distance guard of the second loop of list_observations in main.py:
applied only when both latitude and longitude were supplied. -/
def centerExcludes (latitude longitude : Option ℝ) (radius_km : ℝ)
    (obs : ObservationRecord) : Prop :=
  match latitude, longitude with
  | some lat, some lon => haversine_distance_km lat lon obs.latitude obs.longitude > radius_km
  | _, _ => False

noncomputable instance (latitude longitude : Option ℝ) (radius_km : ℝ)
    (obs : ObservationRecord) : Decidable (centerExcludes latitude longitude radius_km obs) :=
  match latitude, longitude with
  | some lat, some lon =>
    inferInstanceAs (Decidable (haversine_distance_km lat lon obs.latitude obs.longitude > radius_km))
  | some _, none => .isFalse (fun h => h)
  | none, some _ => .isFalse (fun h => h)
  | none, none => .isFalse (fun h => h)

/-- The second filtering loop of list_observations in main.py: metric guard,
age guard, and the distance guard only when both coordinates are present. -/
noncomputable def collectListed (metric : Option MetricKey) (latitude longitude : Option ℝ)
    (radius_km : ℝ) (cutoff : ℤ) : List ObservationRecord → List ObservationRecord
  | [] => []
  | obs :: rest =>
    if metricMismatch metric obs then
      collectListed metric latitude longitude radius_km cutoff rest
    else if obs.timestamp < cutoff then
      collectListed metric latitude longitude radius_km cutoff rest
    else if centerExcludes latitude longitude radius_km obs then
      collectListed metric latitude longitude radius_km cutoff rest
    else obs :: collectListed metric latitude longitude radius_km cutoff rest

/-- The handler list_observations of main.py (GET /observations), with the
store and the clock injected.  When either coordinate is absent the data
source is the whole store; otherwise it is the _filter_user_observations
result, which the second loop then filters again. -/
noncomputable def list_observations (store : List ObservationRecord)
    (metric : Option MetricKey) (latitude longitude : Option ℝ) (radius_km : ℝ)
    (hours : ℤ) (now : ℤ) : List ObservationRecord :=
  let data :=
    match latitude, longitude with
    | some lat, some lon => filter_user_observations store lat lon metric hours radius_km now
    | _, _ => store
  List.insertionSort tsLE (collectListed metric latitude longitude radius_km (now - 3600 * hours) data)

/-- The record construction of add_observation in main.py (POST
/observations): server-assigned id and submitted_at are injected, and the
source field falls back to "user" through Python or-truthiness (None and the
empty string are both falsy). -/
def add_observation_record (obs : BaseObservation) (newId : String)
    (submittedAt : ℤ) : ObservationRecord :=
  { id := newId
    timestamp := obs.timestamp
    metric := obs.metric
    value := obs.value
    latitude := obs.latitude
    longitude := obs.longitude
    location_name := obs.location_name
    source := some (match obs.source with
      | none => "user"
      | some s => if s = "" then "user" else s)
    notes := obs.notes
    submitted_at := submittedAt }

/-- One entry of the upstream geocoding provider's results array, with the
optional JSON fields as Options. -/
structure ProviderGeocodeItem where
  id : Option ℤ
  name : String
  country : Option String
  admin1 : Option String
  latitude : ℚ
  longitude : ℚ
  timezone : Option String
deriving DecidableEq

/-- The GeocodeResult model of main.py. -/
structure GeocodeResult where
  id : Option ℤ
  name : String
  country : Option String
  admin1 : Option String
  latitude : ℚ
  longitude : ℚ
  timezone : Option String
deriving DecidableEq

/-- The construction GeocodeResult(**item) of main.py: field-for-field. -/
def toGeocodeResult (item : ProviderGeocodeItem) : GeocodeResult :=
  { id := item.id
    name := item.name
    country := item.country
    admin1 := item.admin1
    latitude := item.latitude
    longitude := item.longitude
    timezone := item.timezone }

/-- The success path of the geocode handler of main.py: payload.get("results")
or [] (an absent results field is modelled as none), then element-wise
construction of GeocodeResult. -/
def geocode (results : Option (List ProviderGeocodeItem)) : List GeocodeResult :=
  (results.getD []).map toGeocodeResult

/-- The Timeseries Composer: the handler timeseries of main.py after the
forecast fetch succeeded, attaching the observation query result (default
radius 75.0 km) when include_user_observations is true and the empty list
otherwise. -/
noncomputable def timeseries (store : List ObservationRecord) (metric : MetricKey)
    (latitude longitude : ℝ) (hours : ℤ) (include_user_observations : Bool)
    (now : ℤ) (payload : HourlyPayload) : Except FetchError TimeseriesResponse :=
  match fetch_hourly_data metric latitude longitude hours now payload with
  | .error e => .error e
  | .ok series =>
    .ok { series with
          user_observations :=
            if include_user_observations then
              filter_user_observations store latitude longitude (some metric) hours 75 now
            else [] }

/-- One request against the process-wide store USER_OBSERVATIONS: the append
endpoint or one of the read paths. -/
inductive StoreOp where
  | addObs (obs : BaseObservation) (newId : String) (submittedAt : ℤ)
  | queryObs (latitude longitude : ℝ) (metric : Option MetricKey) (hours : ℤ)
      (radius_km : ℝ) (now : ℤ)
  | listObs (metric : Option MetricKey) (latitude longitude : Option ℝ)
      (radius_km : ℝ) (hours : ℤ) (now : ℤ)
  | composeTs (metric : MetricKey) (latitude longitude : ℝ) (hours : ℤ)
      (include_user_observations : Bool) (now : ℤ) (payload : HourlyPayload)

/-- What one request returns. -/
inductive OpResult where
  | added (record : ObservationRecord)
  | queried (records : List ObservationRecord)
  | listed (records : List ObservationRecord)
  | composed (response : Except FetchError TimeseriesResponse)

/-- One request's effect on USER_OBSERVATIONS and its result: add_observation
appends the new record at the end (list.append); every read path computes its
result from the store without changing it. -/
noncomputable def runStoreOp (store : List ObservationRecord) :
    StoreOp → List ObservationRecord × OpResult
  | .addObs obs newId submittedAt =>
    let record := add_observation_record obs newId submittedAt
    (store ++ [record], .added record)
  | .queryObs latitude longitude metric hours radius_km now =>
    (store, .queried (filter_user_observations store latitude longitude metric hours radius_km now))
  | .listObs metric latitude longitude radius_km hours now =>
    (store, .listed (list_observations store metric latitude longitude radius_km hours now))
  | .composeTs metric latitude longitude hours include_user_observations now payload =>
    (store, .composed (timeseries store metric latitude longitude hours
      include_user_observations now payload))

/-- The store contents after a sequence of requests. -/
noncomputable def runStoreOps (store : List ObservationRecord)
    (ops : List StoreOp) : List ObservationRecord :=
  ops.foldl (fun s op => (runStoreOp s op).1) store

/-- Concrete payload for the fetch bound check: two hourly entries, the
second with a null value. -/
def payloadBounded : HourlyPayload :=
  { time := some [some 0, some 3600], values := some [some 5, none] }

/-- Concrete response the fetch returns on payloadBounded. -/
def respBounded : TimeseriesResponse :=
  { metric := .temperature
    metric_label := "Air Temperature"
    unit := "Â°C"
    latitude := 0
    longitude := 0
    hours_requested := 24
    source := "open-meteo"
    points := [{ timestamp := 0, value := 5 }]
    user_observations := [] }

/-- Concrete record at the query center for the inclusion check. -/
def obsNear : ObservationRecord :=
  { id := "near"
    timestamp := 0
    metric := .temperature
    value := 43 / 2
    latitude := 40
    longitude := -74
    location_name := none
    source := some "user"
    notes := none
    submitted_at := 0 }

/-- Concrete record on the antimeridian, at positive distance from (0, 0),
for the radius-zero exclusion check. -/
def obsFar : ObservationRecord :=
  { id := "far"
    timestamp := 0
    metric := .temperature
    value := 1
    latitude := 0
    longitude := 180
    location_name := none
    source := some "user"
    notes := none
    submitted_at := 0 }

/-- Concrete observation without a source for the default check. -/
def obsNoSource : BaseObservation :=
  { timestamp := 0
    metric := .temperature
    value := 1
    latitude := 0
    longitude := 0
    location_name := none
    source := none
    notes := none }

theorem radians_zero : radians 0 = 0 := by
  simp [radians]

theorem radians_neg (x : ℝ) : radians (-x) = -(radians x) := by
  simp [radians]

theorem haversine_self (lat lon : ℝ) : haversine_distance_km lat lon lat lon = 0 := by
  simp [haversine_distance_km, radians_zero]

theorem haversine_comm (lat1 lon1 lat2 lon2 : ℝ) :
    haversine_distance_km lat1 lon1 lat2 lon2 = haversine_distance_km lat2 lon2 lat1 lon1 := by
  have hsq : ∀ x : ℝ, Real.sin (radians (-x) / 2) ^ 2 = Real.sin (radians x / 2) ^ 2 := by
    intro x
    rw [radians_neg, neg_div, Real.sin_neg, neg_sq]
  simp only [haversine_distance_km]
  have h1 : lat1 - lat2 = -(lat2 - lat1) := by ring
  have h2 : lon1 - lon2 = -(lon2 - lon1) := by ring
  rw [h1, h2, hsq, hsq, mul_comm (Real.cos (radians lat2)) (Real.cos (radians lat1))]

theorem haversine_nonneg (lat1 lon1 lat2 lon2 : ℝ) :
    0 ≤ haversine_distance_km lat1 lon1 lat2 lon2 := by
  simp only [haversine_distance_km]
  have h1 : (0 : ℝ) ≤ Real.arcsin (Real.sqrt (Real.sin (radians (lat2 - lat1) / 2) ^ 2 +
      Real.cos (radians lat1) * Real.cos (radians lat2) *
        Real.sin (radians (lon2 - lon1) / 2) ^ 2)) :=
    Real.arcsin_nonneg.2 (Real.sqrt_nonneg _)
  have h2 : (0 : ℝ) ≤ 6371.0 := by norm_num
  nlinarith [h1, h2]

theorem mem_collectMatches (latitude longitude : ℝ) (metric : Option MetricKey)
    (cutoff : ℤ) (radius_km : ℝ) (l : List ObservationRecord) (r : ObservationRecord) :
    r ∈ collectMatches latitude longitude metric cutoff radius_km l ↔
      r ∈ l ∧ metricMismatch metric r = false ∧ cutoff ≤ r.timestamp ∧
        haversine_distance_km latitude longitude r.latitude r.longitude ≤ radius_km := by
  induction l with
  | nil => simp [collectMatches]
  | cons obs rest ih =>
    simp only [collectMatches]
    split_ifs with h1 h2 h3
    · rw [ih]
      constructor
      · rintro ⟨hm, hrest⟩
        exact ⟨List.mem_cons_of_mem _ hm, hrest⟩
      · rintro ⟨hm, hmm, hrest⟩
        rcases List.mem_cons.1 hm with rfl | hm
        · exact absurd hmm (by simp [h1])
        · exact ⟨hm, hmm, hrest⟩
    · rw [ih]
      constructor
      · rintro ⟨hm, hrest⟩
        exact ⟨List.mem_cons_of_mem _ hm, hrest⟩
      · rintro ⟨hm, hmm, hts, hd⟩
        rcases List.mem_cons.1 hm with rfl | hm
        · omega
        · exact ⟨hm, hmm, hts, hd⟩
    · rw [ih]
      constructor
      · rintro ⟨hm, hrest⟩
        exact ⟨List.mem_cons_of_mem _ hm, hrest⟩
      · rintro ⟨hm, hmm, hts, hd⟩
        rcases List.mem_cons.1 hm with rfl | hm
        · exact absurd hd (not_le.2 h3)
        · exact ⟨hm, hmm, hts, hd⟩
    · rw [List.mem_cons, ih, List.mem_cons]
      constructor
      · rintro (rfl | ⟨hm, hrest⟩)
        · exact ⟨Or.inl rfl, by simpa using h1, by omega, le_of_not_lt h3⟩
        · exact ⟨Or.inr hm, hrest⟩
      · rintro ⟨rfl | hm, hmm, hts, hd⟩
        · exact Or.inl rfl
        · exact Or.inr ⟨hm, hmm, hts, hd⟩

theorem collectMatches_sublist (latitude longitude : ℝ) (metric : Option MetricKey)
    (cutoff : ℤ) (radius_km : ℝ) (l : List ObservationRecord) :
    List.Sublist (collectMatches latitude longitude metric cutoff radius_km l) l := by
  induction l with
  | nil => simp [collectMatches]
  | cons obs rest ih =>
    simp only [collectMatches]
    split_ifs <;> first
      | exact ih.trans (List.sublist_cons_self obs rest)
      | exact ih.cons₂ obs

/-- Stability of the stable sort: the subsequence of elements with any one
timestamp is unchanged by sorting on timestamps. -/
theorem insertionSort_tsLE_filter_timestamp (l : List ObservationRecord) (t : ℤ) :
    (List.insertionSort tsLE l).filter (fun r => r.timestamp == t) =
      l.filter (fun r => r.timestamp == t) := by
  have hpair : (l.filter (fun r => r.timestamp == t)).Pairwise tsLE := by
    refine List.pairwise_of_forall_mem_list ?_
    intro a ha b hb
    have ha' := (List.mem_filter.1 ha).2
    have hb' := (List.mem_filter.1 hb).2
    simp only [beq_iff_eq] at ha' hb'
    unfold tsLE
    omega
  have hsub : List.Sublist (l.filter (fun r => r.timestamp == t)) (List.insertionSort tsLE l) :=
    List.sublist_insertionSort hpair (List.filter_sublist l)
  have hsub2 : List.Sublist ((l.filter (fun r => r.timestamp == t)).filter
      (fun r => r.timestamp == t)) ((List.insertionSort tsLE l).filter (fun r => r.timestamp == t)) :=
    hsub.filter _
  rw [List.filter_filter] at hsub2
  have hself : (l.filter (fun r => (r.timestamp == t && r.timestamp == t))) =
      l.filter (fun r => r.timestamp == t) := by
    apply List.filter_congr
    intro a _
    cases h : (a.timestamp == t) <;> simp [h]
  rw [hself] at hsub2
  have hperm : ((List.insertionSort tsLE l).filter (fun r => r.timestamp == t)).Perm
      (l.filter (fun r => r.timestamp == t)) :=
    (List.perm_insertionSort tsLE l).filter _
  exact (hsub2.eq_of_length hperm.length_eq.symm).symm

theorem buildPoints_eq_takeWhile (cutoff : ℤ) (pairs : List (Option ℤ × Option ℚ)) :
    buildPoints cutoff pairs =
      (pairs.takeWhile (fun p => !stopsLoop cutoff p)).filterMap keepPair := by
  induction pairs with
  | nil => rfl
  | cons p rest ih =>
    obtain ⟨rawTime, rawValue⟩ := p
    match rawTime with
    | none =>
      simp [buildPoints, stopsLoop, List.takeWhile_cons, keepPair, ih]
    | some ts =>
      by_cases h : cutoff < ts
      · simp [buildPoints, stopsLoop, List.takeWhile_cons, h]
      · match rawValue with
        | none =>
          simp [buildPoints, stopsLoop, List.takeWhile_cons, h, keepPair, ih]
        | some v =>
          simp [buildPoints, stopsLoop, List.takeWhile_cons, h, keepPair, ih]

theorem buildPoints_timestamp_le (cutoff : ℤ) (pairs : List (Option ℤ × Option ℚ)) :
    ∀ p ∈ buildPoints cutoff pairs, p.timestamp ≤ cutoff := by
  induction pairs with
  | nil => simp [buildPoints]
  | cons q rest ih =>
    obtain ⟨rawTime, rawValue⟩ := q
    match rawTime with
    | none => simpa [buildPoints] using ih
    | some ts =>
      by_cases h : cutoff < ts
      · simp [buildPoints, h]
      · match rawValue with
        | none => simpa [buildPoints, h] using ih
        | some v =>
          intro p hp
          simp only [buildPoints, if_neg h, List.mem_cons] at hp
          rcases hp with rfl | hp
          · exact le_of_not_lt h
          · exact ih p hp

theorem buildPoints_nil_of_all_none (cutoff : ℤ) (times : List (Option ℤ))
    (vals : List (Option ℚ)) (h : ∀ v ∈ vals, v = none) :
    buildPoints cutoff (times.zip vals) = [] := by
  induction times generalizing vals with
  | nil => simp [buildPoints]
  | cons t rest ih =>
    match vals with
    | [] => simp [buildPoints]
    | v :: vrest =>
      have hv : v = none := h v (List.mem_cons_self _ _)
      subst hv
      have hrest : ∀ w ∈ vrest, w = none := fun w hw => h w (List.mem_cons_of_mem _ hw)
      match t with
      | none => simpa [buildPoints] using ih vrest hrest
      | some ts =>
        by_cases hc : cutoff < ts
        · simp [buildPoints, List.zip_cons_cons, hc]
        · simpa [buildPoints, List.zip_cons_cons, hc] using ih vrest hrest

theorem centerExcludes_of_missing (latitude longitude : Option ℝ) (radius_km : ℝ)
    (obs : ObservationRecord) (h : latitude = none ∨ longitude = none) :
    ¬ centerExcludes latitude longitude radius_km obs := by
  rcases h with rfl | rfl
  · intro hc
    exact match longitude with
      | some _ => hc
      | none => hc
  · intro hc
    exact match latitude with
      | some _ => hc
      | none => hc

theorem mem_collectListed (metric : Option MetricKey) (latitude longitude : Option ℝ)
    (radius_km : ℝ) (cutoff : ℤ) (l : List ObservationRecord) (r : ObservationRecord) :
    r ∈ collectListed metric latitude longitude radius_km cutoff l ↔
      r ∈ l ∧ metricMismatch metric r = false ∧ cutoff ≤ r.timestamp ∧
        ¬ centerExcludes latitude longitude radius_km r := by
  induction l with
  | nil => simp [collectListed]
  | cons obs rest ih =>
    simp only [collectListed]
    split_ifs with h1 h2 h3
    · rw [ih]
      constructor
      · rintro ⟨hm, hrest⟩
        exact ⟨List.mem_cons_of_mem _ hm, hrest⟩
      · rintro ⟨hm, hmm, hrest⟩
        rcases List.mem_cons.1 hm with rfl | hm
        · exact absurd hmm (by simp [h1])
        · exact ⟨hm, hmm, hrest⟩
    · rw [ih]
      constructor
      · rintro ⟨hm, hrest⟩
        exact ⟨List.mem_cons_of_mem _ hm, hrest⟩
      · rintro ⟨hm, hmm, hts, hd⟩
        rcases List.mem_cons.1 hm with rfl | hm
        · omega
        · exact ⟨hm, hmm, hts, hd⟩
    · rw [ih]
      constructor
      · rintro ⟨hm, hrest⟩
        exact ⟨List.mem_cons_of_mem _ hm, hrest⟩
      · rintro ⟨hm, hmm, hts, hd⟩
        rcases List.mem_cons.1 hm with rfl | hm
        · exact absurd h3 hd
        · exact ⟨hm, hmm, hts, hd⟩
    · rw [List.mem_cons, ih, List.mem_cons]
      constructor
      · rintro (rfl | ⟨hm, hrest⟩)
        · exact ⟨Or.inl rfl, by simpa using h1, by omega, h3⟩
        · exact ⟨Or.inr hm, hrest⟩
      · rintro ⟨rfl | hm, hmm, hts, hd⟩
        · exact Or.inl rfl
        · exact Or.inr ⟨hm, hmm, hts, hd⟩

theorem collectListed_of_missing (metric : Option MetricKey) (latitude longitude : Option ℝ)
    (radius_km radius_km' : ℝ) (cutoff : ℤ) (l : List ObservationRecord)
    (h : latitude = none ∨ longitude = none) :
    collectListed metric latitude longitude radius_km cutoff l =
      collectListed metric none none radius_km' cutoff l := by
  induction l with
  | nil => rfl
  | cons obs rest ih =>
    simp only [collectListed]
    rw [if_neg (centerExcludes_of_missing latitude longitude radius_km obs h),
      if_neg (centerExcludes_of_missing none none radius_km' obs (Or.inl rfl))]
    split_ifs <;> rw [ih]

theorem metricMismatch_eq_false_iff (metric : Option MetricKey) (r : ObservationRecord) :
    metricMismatch metric r = false ↔ ∀ m, metric = some m → r.metric = m := by
  cases metric with
  | none => simp [metricMismatch]
  | some m => simp [metricMismatch]

theorem haversine_pole_to_antimeridian_pos : 0 < haversine_distance_km 0 0 0 180 := by
  have h0 : radians (0 - 0) = 0 := by norm_num [radians]
  have h180 : radians (180 - 0) = Real.pi := by rw [radians]; field_simp
  simp only [haversine_distance_km, h0, h180, zero_div, Real.sin_zero, Real.sin_pi_div_two,
    radians_zero, Real.cos_zero]
  norm_num [Real.sqrt_one, Real.arcsin_one]
  positivity

/-- The offset-naive model is the success-path restriction of the full one:
on a pair list whose parsed timestamps are all offset-naive the loop never
raises and agrees with buildPoints. -/
theorem buildPointsAware_all_naive (cutoff : ℤ) (pairs : List (Option ℤ × Option ℚ)) :
    buildPointsAware cutoff (pairs.map (fun p => (p.1.map ParsedTime.naive, p.2))) =
      .ok (buildPoints cutoff pairs) := by
  induction pairs with
  | nil => rfl
  | cons p rest ih =>
    obtain ⟨rawTime, rawValue⟩ := p
    match rawTime with
    | none => simpa [buildPointsAware, buildPoints] using ih
    | some ts =>
      by_cases h : cutoff < ts
      · simp [buildPointsAware, buildPoints, h]
      · match rawValue with
        | none => simpa [buildPointsAware, buildPoints, h] using ih
        | some v => simp [buildPointsAware, buildPoints, h, ih, Except.map]

/-- C2 is false of the program as written: on the upstream arrays
time=["2024-01-01T00:00Z"], temperature_2m=[5.0], hours=24, the loop's
cutoff comparison meets an offset-aware parse result and raises the
uncaught TypeError (surfaced as HTTP 500) instead of appending the point
the claim describes; the offset-naive rendering of the same instant is
appended.  The spec's own step 5 ("treat Z suffix as UTC offset") and its
acceptance scenario with Z-suffixed times name this input as one that must
yield points, so the code, not the claim, is at fault. -/
theorem forecast_loop_z_suffix_type_error :
    fetch_hourly_data_tz .temperature 0 0 24 1704067200
        { time := some [some (.aware 1704067200)], values := some [some 5] } =
      .crashed .typeError
    ∧ buildPointsAware (1704067200 + 3600 * 24) [(some (.naive 1704067200), some 5)] =
      .ok [{ timestamp := 1704067200, value := 5 }] :=
  ⟨rfl, rfl⟩

/-- C6: the haversine distance is zero between a coordinate and itself,
symmetric in its two coordinates, and never negative. -/
theorem haversine_distance_properties :
    (∀ lat lon : ℝ, haversine_distance_km lat lon lat lon = 0)
    ∧ (∀ lat1 lon1 lat2 lon2 : ℝ,
        haversine_distance_km lat1 lon1 lat2 lon2 = haversine_distance_km lat2 lon2 lat1 lon1)
    ∧ (∀ lat1 lon1 lat2 lon2 : ℝ, 0 ≤ haversine_distance_km lat1 lon1 lat2 lon2) :=
  ⟨haversine_self, haversine_comm, haversine_nonneg⟩

/-- C7: on a successful provider response the geocode adapter returns the
provider's list mapped element-wise into the local shape with order
preserved, and an absent or empty results field yields the empty list
rather than a failure. -/
theorem geocode_maps_results_in_order :
    (geocode none = [])
    ∧ (geocode (some []) = [])
    ∧ (∀ items : List ProviderGeocodeItem, (geocode (some items)).length = items.length)
    ∧ (∀ (items : List ProviderGeocodeItem) (i : ℕ),
        (geocode (some items))[i]? = (items[i]?).map toGeocodeResult) := by
  refine ⟨rfl, rfl, fun items => ?_, fun items i => ?_⟩
  · simp [geocode]
  · simp [geocode]

/-- C1: for every upstream payload and hours in the validated range, a
successful fetch returns at most hours points, none with a timestamp
strictly past now + hours. -/
theorem forecast_points_bounded (metric : MetricKey) (latitude longitude : ℝ)
    (hours now : ℤ) (payload : HourlyPayload) (resp : TimeseriesResponse)
    (hlow : 1 ≤ hours) (hhigh : hours ≤ 168)
    (hfetch : fetch_hourly_data metric latitude longitude hours now payload = .ok resp) :
    (resp.points.length : ℤ) ≤ hours ∧
      ∀ p ∈ resp.points, p.timestamp ≤ now + 3600 * hours := by
  simp only [fetch_hourly_data] at hfetch
  split_ifs at hfetch with h1 h2
  rw [Except.ok.injEq] at hfetch
  subst hfetch
  constructor
  · have hlen := List.length_take_le hours.toNat
      (buildPoints (now + 3600 * hours) ((payload.time.getD []).zip (payload.values.getD [])))
    simp only
    omega
  · intro p hp
    simp only at hp
    exact buildPoints_timestamp_le (now + 3600 * hours) _ p (List.take_subset _ _ hp)

theorem forecast_points_bounded_check :
    (respBounded.points.length : ℤ) ≤ 24 ∧
      ∀ p ∈ respBounded.points, p.timestamp ≤ 0 + 3600 * 24 :=
  forecast_points_bounded .temperature 0 0 24 0 payloadBounded respBounded
    (by norm_num) (by norm_num) rfl

/-- C4 is false of the program as written: with every upstream value null
but the timestamp "2024-01-01T00:00Z", the code raises the uncaught
TypeError (HTTP 500) at the cutoff comparison before it ever reaches the
null check, not the 404-class NoDataError the claim requires; only with an
offset-naive timestamp does the same all-null payload produce NoDataError,
whose status code is 404.  The spec's error taxonomy ("the process itself
never crashes on a single bad request") makes the crash a code slip. -/
theorem forecast_all_null_z_suffix_crash :
    fetch_hourly_data_tz .temperature 0 0 24 1704067200
        { time := some [some (.aware 1704067200)], values := some [none] } =
      .crashed .typeError
    ∧ fetch_hourly_data_tz .temperature 0 0 24 1704067200
        { time := some [some (.naive 1704067200)], values := some [none] } =
      .httpError (.noDataError "No usable datapoints found for the requested window.")
    ∧ (FetchError.noDataError
        "No usable datapoints found for the requested window.").statusCode = 404 :=
  ⟨rfl, rfl, rfl⟩

/-- C3: the observation query returns exactly the records passing the
AND of the metric, age and radius guards; the result is sorted ascending by
timestamp, and since the kept records are a sublist of the store (arrival
order) and the sort preserves each equal-timestamp subsequence, ties keep
arrival order. -/
theorem observation_query_exact (store : List ObservationRecord) (latitude longitude : ℝ)
    (metric : Option MetricKey) (hours : ℤ) (radius_km : ℝ) (now : ℤ) :
    (∀ r, r ∈ filter_user_observations store latitude longitude metric hours radius_km now ↔
        (r ∈ store ∧ (∀ m, metric = some m → r.metric = m) ∧
          now - 3600 * hours ≤ r.timestamp ∧
          haversine_distance_km latitude longitude r.latitude r.longitude ≤ radius_km))
    ∧ (filter_user_observations store latitude longitude metric hours radius_km now).Sorted tsLE
    ∧ List.Sublist
        (collectMatches latitude longitude metric (now - 3600 * hours) radius_km store) store
    ∧ (∀ t : ℤ,
        (filter_user_observations store latitude longitude metric hours radius_km now).filter
            (fun r => r.timestamp == t) =
          (collectMatches latitude longitude metric (now - 3600 * hours) radius_km store).filter
            (fun r => r.timestamp == t)) := by
  refine ⟨fun r => ?_, ?_, collectMatches_sublist _ _ _ _ _ _, fun t => ?_⟩
  · rw [filter_user_observations, List.mem_insertionSort, mem_collectMatches,
      metricMismatch_eq_false_iff]
  · exact List.sorted_insertionSort tsLE _
  · exact insertionSort_tsLE_filter_timestamp _ t

/-- C5: a stored record queried from its own coordinate with a covering age
window, nonnegative radius and matching or absent metric is returned; with
radius zero, any record at strictly positive distance from the center is
not returned. -/
theorem observation_query_inclusion_exclusion :
    (∀ (store : List ObservationRecord) (rec : ObservationRecord) (metric : Option MetricKey)
        (hours now : ℤ) (radius_km : ℝ),
        rec ∈ store → 0 ≤ radius_km → now - 3600 * hours ≤ rec.timestamp →
        (metric = none ∨ metric = some rec.metric) →
        rec ∈ filter_user_observations store rec.latitude rec.longitude metric hours radius_km now)
    ∧ (∀ (store : List ObservationRecord) (rec : ObservationRecord) (clat clon : ℝ)
        (metric : Option MetricKey) (hours now : ℤ),
        0 < haversine_distance_km clat clon rec.latitude rec.longitude →
        rec ∉ filter_user_observations store clat clon metric hours 0 now) := by
  constructor
  · intro store rec metric hours now radius_km hmem hrad hage hmetric
    rw [filter_user_observations, List.mem_insertionSort, mem_collectMatches]
    refine ⟨hmem, ?_, hage, ?_⟩
    · rcases hmetric with rfl | rfl
      · rfl
      · simp [metricMismatch]
    · rw [haversine_self]
      exact hrad
  · intro store rec clat clon metric hours now hpos hmem
    rw [filter_user_observations, List.mem_insertionSort, mem_collectMatches] at hmem
    exact absurd hmem.2.2.2 (not_le.2 hpos)

theorem observation_query_inclusion_exclusion_check :
    obsNear ∈ filter_user_observations [obsNear] obsNear.latitude obsNear.longitude
        (some .temperature) 1 75 0
    ∧ obsFar ∉ filter_user_observations [obsFar] 0 0 none 1 0 0 := by
  constructor
  · exact observation_query_inclusion_exclusion.1 [obsNear] obsNear (some .temperature) 1 0 75
      (List.mem_singleton.2 rfl) (by norm_num) (by norm_num [obsNear]) (Or.inr rfl)
  · refine observation_query_inclusion_exclusion.2 [obsFar] obsFar 0 0 none 1 0 ?_
    have h1 : obsFar.latitude = 0 := rfl
    have h2 : obsFar.longitude = 180 := rfl
    rw [h1, h2]
    exact haversine_pole_to_antimeridian_pos

/-- C8: the store only grows: POST /observations appends exactly one record
at the end, every read path returns the store unchanged, and hence the store
at any moment is a prefix of the store after any further request sequence. -/
theorem observation_store_only_grows :
    (∀ (store : List ObservationRecord) (obs : BaseObservation) (newId : String)
        (submittedAt : ℤ),
        (runStoreOp store (.addObs obs newId submittedAt)).1 =
          store ++ [add_observation_record obs newId submittedAt])
    ∧ (∀ (store : List ObservationRecord) (latitude longitude : ℝ) (metric : Option MetricKey)
        (hours : ℤ) (radius_km : ℝ) (now : ℤ),
        (runStoreOp store (.queryObs latitude longitude metric hours radius_km now)).1 = store)
    ∧ (∀ (store : List ObservationRecord) (metric : Option MetricKey)
        (latitude longitude : Option ℝ) (radius_km : ℝ) (hours now : ℤ),
        (runStoreOp store (.listObs metric latitude longitude radius_km hours now)).1 = store)
    ∧ (∀ (store : List ObservationRecord) (metric : MetricKey) (latitude longitude : ℝ)
        (hours : ℤ) (inc : Bool) (now : ℤ) (payload : HourlyPayload),
        (runStoreOp store (.composeTs metric latitude longitude hours inc now payload)).1 = store)
    ∧ (∀ (store : List ObservationRecord) (ops : List StoreOp),
        store <+: runStoreOps store ops) := by
  refine ⟨fun _ _ _ _ => rfl, fun _ _ _ _ _ _ _ => rfl, fun _ _ _ _ _ _ _ => rfl,
    fun _ _ _ _ _ _ _ _ => rfl, fun store ops => ?_⟩
  induction ops generalizing store with
  | nil => exact List.prefix_rfl
  | cons op rest ih =>
    have hstep : store <+: (runStoreOp store op).1 := by
      cases op with
      | addObs obs newId submittedAt => exact List.prefix_append store _
      | queryObs latitude longitude metric hours radius_km now => exact List.prefix_rfl
      | listObs metric latitude longitude radius_km hours now => exact List.prefix_rfl
      | composeTs metric latitude longitude hours inc now payload => exact List.prefix_rfl
    exact hstep.trans (ih (runStoreOp store op).1)

/-- C9: a posted observation with an absent or empty source is stored with
source "user"; a non-empty source is stored unchanged. -/
theorem observation_source_default :
    (∀ (obs : BaseObservation) (newId : String) (submittedAt : ℤ), obs.source = none →
        (add_observation_record obs newId submittedAt).source = some "user")
    ∧ (∀ (obs : BaseObservation) (newId : String) (submittedAt : ℤ), obs.source = some "" →
        (add_observation_record obs newId submittedAt).source = some "user")
    ∧ (∀ (obs : BaseObservation) (newId : String) (submittedAt : ℤ) (s : String),
        obs.source = some s → s ≠ "" →
        (add_observation_record obs newId submittedAt).source = some s) := by
  refine ⟨fun obs newId submittedAt h => ?_, fun obs newId submittedAt h => ?_,
    fun obs newId submittedAt s hs hne => ?_⟩
  · simp [add_observation_record, h]
  · simp [add_observation_record, h]
  · simp [add_observation_record, hs, hne]

theorem observation_source_default_check :
    (add_observation_record obsNoSource "id1" 0).source = some "user"
    ∧ (add_observation_record { obsNoSource with source := some "" } "id2" 0).source = some "user"
    ∧ (add_observation_record { obsNoSource with source := some "station-7" } "id3" 0).source =
        some "station-7" :=
  ⟨observation_source_default.1 obsNoSource "id1" 0 rfl,
    observation_source_default.2.1 { obsNoSource with source := some "" } "id2" 0 rfl,
    observation_source_default.2.2 { obsNoSource with source := some "station-7" } "id3" 0
      "station-7" rfl (by decide)⟩

/-- C10: a GET /observations request supplying only one coordinate behaves
exactly as one supplying neither: the distance guard is skipped, the result
is the store filtered by metric and age only, sorted ascending by
timestamp. -/
theorem list_observations_single_coord (store : List ObservationRecord)
    (metric : Option MetricKey) (lat lon : ℝ) (radius_km : ℝ) (hours now : ℤ) :
    (list_observations store metric (some lat) none radius_km hours now =
        list_observations store metric none none radius_km hours now)
    ∧ (list_observations store metric none (some lon) radius_km hours now =
        list_observations store metric none none radius_km hours now)
    ∧ (∀ r, r ∈ list_observations store metric (some lat) none radius_km hours now ↔
        (r ∈ store ∧ (∀ m, metric = some m → r.metric = m) ∧
          now - 3600 * hours ≤ r.timestamp))
    ∧ (list_observations store metric (some lat) none radius_km hours now).Sorted tsLE := by
  refine ⟨?_, ?_, fun r => ?_, ?_⟩
  · simp only [list_observations]
    rw [collectListed_of_missing metric (some lat) none radius_km radius_km _ _ (Or.inr rfl)]
  · simp only [list_observations]
    rw [collectListed_of_missing metric none (some lon) radius_km radius_km _ _ (Or.inl rfl)]
  · simp only [list_observations]
    rw [List.mem_insertionSort, mem_collectListed, metricMismatch_eq_false_iff]
    have hninc : ¬ centerExcludes (some lat) none radius_km r :=
      centerExcludes_of_missing _ _ _ _ (Or.inr rfl)
    tauto
  · exact List.sorted_insertionSort tsLE _

end ClimaGrid

